import Mathlib

set_option linter.unusedVariables false

/-!
Shallow embedding of `src/app.py` (salman0ansari/pdf-to-image).

The program has three operations:
* `download_pdf(url, save_path)` — fetches the PDF over HTTP and writes it to disk;
* `pdf_to_image(pdf_path, ...)` — opens the document, rasterizes each page,
  stacks the pages vertically onto one canvas and saves it;
* `main()` — classifies the input string as URL or local path, runs the pipeline
  and removes the downloaded temporary file, with a single catch-all handler.

External library calls (the HTTP client, the PDF rasterizer, the image encoder)
are modelled as explicit inputs: an `HttpResponse` for the one GET, and a list of
per-page rasterization outcomes for the document handed to `pdf_to_image`.
Effects (files written, files removed, the saved output, the printed error) are
recorded in explicit trace structures.
-/

/-- A pixel in the fixed three-channel RGB color model. -/
abbrev RGB : Type := Nat × Nat × Nat

/-- An in-memory raster image as produced by PIL: width, height and pixel data.
Pixel lookup is total; only coordinates with `x < width`, `y < height` are meaningful. -/
structure Img where
  width : Nat
  height : Nat
  pix : Nat → Nat → RGB

/-- PIL Image.new with mode RGB and size (w, h): a blank canvas; with no color
argument PIL fills it with the default color black (0, 0, 0). -/
def Image.new (w h : Nat) : Img :=
  { width := w, height := h, pix := fun _ _ => (0, 0, 0) }

/-- PIL paste: copy `img` onto `canvas` with its upper-left corner at (ox, oy);
pixels outside the pasted region keep the canvas value, and the paste is
clipped at the canvas boundary. -/
def Img.paste (canvas : Img) (img : Img) (ox oy : Nat) : Img :=
  { canvas with
    pix := fun x y =>
      if x < canvas.width ∧ y < canvas.height ∧
          ox ≤ x ∧ x < ox + img.width ∧ oy ≤ y ∧ y < oy + img.height then
        img.pix (x - ox) (y - oy)
      else
        canvas.pix x y }

/-- Line 38: `total_height` is the sum of the page heights. -/
def total_height (images : List Img) : Nat :=
  (images.map Img.height).sum

/-- Line 39: `max_width` is the maximum page width; the code only evaluates it
on a non-empty list, where folding `max` from `0` agrees with the Python max. -/
def max_width (images : List Img) : Nat :=
  (images.map Img.width).foldr max 0

/-- The merge loop (lines 45-48): paste each image at `(0, y_offset)` and
advance `y_offset` by the image height. -/
def mergeLoop : List Img → Img → Nat → Img
  | [], canvas, _ => canvas
  | img :: rest, canvas, y_offset =>
      mergeLoop rest (canvas.paste img 0 y_offset) (y_offset + img.height)

/-- Lines 38-48 of `pdf_to_image`: allocate the blank combined canvas and merge
all page images into it. -/
def combine_image (images : List Img) : Img :=
  mergeLoop images (Image.new (max_width images) (total_height images)) 0

/-- Outcome of rasterizing one page (`page.get_pixmap` + `Image.frombytes`):
either the rendered image or the message of the exception raised. -/
abbrev PageRender : Type := Except String Img

/-- The rendering loop (lines 24-30): build the list of page images in document
order; the first page whose rasterization raises aborts the loop with that
exception. -/
def renderPages : List PageRender → Except String (List Img)
  | [] => Except.ok []
  | p :: rest =>
      match p with
      | Except.error e => Except.error e
      | Except.ok img =>
          match renderPages rest with
          | Except.error e => Except.error e
          | Except.ok imgs => Except.ok (img :: imgs)

/-- The errors `pdf_to_image` can raise after the document was opened. -/
inductive PdfErr where
  | renderError : String → PdfErr
  | emptyDocument : PdfErr
deriving DecidableEq

/-- The message carried by the raised exception; for the empty-document case it
is the ValueError message raised on line 35. -/
def PdfErr.message : PdfErr → String
  | PdfErr.renderError e => e
  | PdfErr.emptyDocument => "No images extracted from the PDF."

/-- Trace of one `pdf_to_image` call on an already-opened document:
whether `pdf_document.close()` (line 32) ran, the result or raised error, and the
canvas passed to `combined_image.save` (line 51) if that line was reached. -/
structure PdfToImageTrace where
  docClosed : Bool
  result : Except PdfErr Img
  savedOutput : Option Img

/-- Function `pdf_to_image` (lines 19-52) on an opened document, given the
rasterization outcome of each page. `close()` sits after the loop (line 32), so it runs only
when no page raised; the empty check (line 34) follows it; the save (line 51) is
reached only on full success. -/
def pdf_to_image (doc : List PageRender) : PdfToImageTrace :=
  match renderPages doc with
  | Except.error e =>
      { docClosed := false
        result := Except.error (PdfErr.renderError e)
        savedOutput := none }
  | Except.ok images =>
      if images.isEmpty then
        { docClosed := true
          result := Except.error PdfErr.emptyDocument
          savedOutput := none }
      else
        let combined := combine_image images
        { docClosed := true
          result := Except.ok combined
          savedOutput := some combined }

/-- The one HTTP GET, as seen by the program: a status code and a body. -/
structure HttpResponse where
  status_code : Nat
  content : List Nat

/-- Trace of one `download_pdf` call: the file written (path and bytes), and the
returned path or the raised exception message. -/
structure DownloadTrace where
  fileWritten : Option (String × List Nat)
  result : Except String String

/-- Function `download_pdf` (lines 7-16): on status 200 write the body to
`save_path` and return that path; otherwise raise an Exception with the fixed
failure message and nothing written. -/
def download_pdf (url : String) (save_path : String) (response : HttpResponse) :
    DownloadTrace :=
  if response.status_code = 200 then
    { fileWritten := some (save_path, response.content)
      result := Except.ok save_path }
  else
    { fileWritten := none
      result := Except.error ("Failed to download PDF.") }

/-- The fixed temporary download path assigned to save_path on line 57. -/
def main_save_path : String := "downloaded_pdf.pdf"

/-- Python startswith: `p` is a prefix of `s`, compared on the character
sequences. -/
def startswith (s p : String) : Bool :=
  List.isPrefixOf p.data s.data

/-- Filesystem effects of one run of `main`. -/
structure Effects where
  fileWritten : Option (String × List Nat)
  removed : List String
  savedOutput : Option Img

/-- Result of `fitz.open(pdf_path)`: the opened document (its pages with their
rasterization outcomes) or the exception message. -/
abbrev OpenResult : Type := Except String (List PageRender)

/-- Lines 67-72 of `main`: run `pdf_to_image(pdf_path)`, then, still inside the
`try`, remove `save_path` when `pdf_path == save_path`. An exception from opening
or converting aborts before the removal. -/
def pipelineAfterResolve (pdf_path : String) (written : Option (String × List Nat))
    (save_path : String) (openResult : OpenResult) : Effects × Option String :=
  match openResult with
  | Except.error e =>
      ({ fileWritten := written, removed := [], savedOutput := none }, some e)
  | Except.ok doc =>
      let t := pdf_to_image doc
      match t.result with
      | Except.error err =>
          ({ fileWritten := written, removed := [], savedOutput := t.savedOutput },
            some (PdfErr.message err))
      | Except.ok _ =>
          ({ fileWritten := written
             removed := if pdf_path = save_path then [save_path] else []
             savedOutput := t.savedOutput }, none)

/-- The `try` block of `main` (lines 59-72): classify the input, download if it
is a URL, convert, clean up. Returns the effects performed and the exception
that escaped the block, if any. -/
def tryBlock (input_path : String) (response : HttpResponse) (openResult : OpenResult) :
    Effects × Option String :=
  let save_path := main_save_path
  if startswith input_path ("http://") || startswith input_path ("https://") then
    let dl := download_pdf input_path save_path response
    match dl.result with
    | Except.error e =>
        ({ fileWritten := dl.fileWritten, removed := [], savedOutput := none }, some e)
    | Except.ok pdf_path =>
        pipelineAfterResolve pdf_path dl.fileWritten save_path openResult
  else
    pipelineAfterResolve input_path none save_path openResult

/-- Observable outcome of one run of `main`. -/
structure Run where
  effects : Effects
  printed : Option String
  exitCode : Nat

/-- Function `main` (lines 55-75): run the try block; any exception is caught
on line 74 and printed as one message, and the process still ends normally
with exit code 0. Named `main_run` because the name main is reserved for an
entry point. -/
def main_run (input_path : String) (response : HttpResponse) (openResult : OpenResult) : Run :=
  let r := tryBlock input_path response openResult
  match r.2 with
  | some e => { effects := r.1, printed := some (("Error: ") ++ e), exitCode := 0 }
  | none => { effects := r.1, printed := none, exitCode := 0 }

/-- A concrete 2×3 page used in witnesses. -/
def testPage : Img :=
  { width := 2, height := 3, pix := fun _ _ => (9, 8, 7) }

/-! Helper lemmas about the compositor. -/

theorem Img.paste_width (c i : Img) (ox oy : Nat) : (c.paste i ox oy).width = c.width := rfl

theorem Img.paste_height (c i : Img) (ox oy : Nat) : (c.paste i ox oy).height = c.height := rfl

theorem Img.paste_pix (c i : Img) (ox oy x y : Nat) :
    (c.paste i ox oy).pix x y =
      if x < c.width ∧ y < c.height ∧
          ox ≤ x ∧ x < ox + i.width ∧ oy ≤ y ∧ y < oy + i.height then
        i.pix (x - ox) (y - oy)
      else c.pix x y := rfl

theorem mergeLoop_width (imgs : List Img) :
    ∀ (c : Img) (y : Nat), (mergeLoop imgs c y).width = c.width := by
  induction imgs with
  | nil => intro c y; rfl
  | cons img rest ih =>
      intro c y
      rw [mergeLoop, ih]
      rfl

theorem mergeLoop_height (imgs : List Img) :
    ∀ (c : Img) (y : Nat), (mergeLoop imgs c y).height = c.height := by
  induction imgs with
  | nil => intro c y; rfl
  | cons img rest ih =>
      intro c y
      rw [mergeLoop, ih]
      rfl

theorem combine_image_width (images : List Img) :
    (combine_image images).width = max_width images := by
  rw [combine_image, mergeLoop_width]
  rfl

theorem combine_image_height (images : List Img) :
    (combine_image images).height = total_height images := by
  rw [combine_image, mergeLoop_height]
  rfl

/-- Pixels strictly above the current offset are never touched by later pastes. -/
theorem mergeLoop_pix_below (imgs : List Img) :
    ∀ (c : Img) (y0 x Y : Nat), Y < y0 → (mergeLoop imgs c y0).pix x Y = c.pix x Y := by
  induction imgs with
  | nil => intro c y0 x Y _; rfl
  | cons img rest ih =>
      intro c y0 x Y hY
      rw [mergeLoop, ih _ _ _ _ (lt_of_lt_of_le hY (Nat.le_add_right _ _))]
      rw [Img.paste_pix, if_neg]
      rintro ⟨-, -, -, -, h5, -⟩
      omega

theorem max_width_cons (a : Img) (l : List Img) :
    max_width (a :: l) = max a.width (max_width l) := rfl

theorem width_le_max_width (images : List Img) :
    ∀ img ∈ images, img.width ≤ max_width images := by
  induction images with
  | nil => intro img h; cases h
  | cons a l ih =>
      intro img hmem
      rcases List.mem_cons.mp hmem with hq | hmem
      · rw [hq, max_width_cons]; exact le_max_left _ _
      · exact Nat.le_trans (ih img hmem) (by rw [max_width_cons]; exact le_max_right _ _)

theorem max_width_mem (images : List Img) (h : images ≠ []) :
    max_width images ∈ images.map Img.width := by
  induction images with
  | nil => cases h rfl
  | cons a l ih =>
      rw [max_width_cons]
      by_cases hl : l = []
      · subst hl
        simp [max_width]
      · rcases Nat.le_total (max_width l) a.width with hle | hle
        · rw [max_eq_left hle]; simp
        · rw [max_eq_right hle]
          simp only [List.map_cons, List.mem_cons]
          right
          exact ih hl

/-- The offset of page `i` plus its height fits inside the total height. -/
theorem take_height_sum_le (imgs : List Img) :
    ∀ (i : Nat) (h : i < imgs.length),
      ((imgs.take i).map Img.height).sum + imgs[i].height ≤ total_height imgs := by
  induction imgs with
  | nil => intro i h; exact absurd h (Nat.not_lt_zero i)
  | cons img rest ih =>
      intro i h
      cases i with
      | zero =>
          simp [total_height]
      | succ j =>
          have hj : j < rest.length := by simpa using h
          have hrec := ih j hj
          simp only [List.take_succ_cons, List.map_cons, List.sum_cons,
            List.getElem_cons_succ, total_height] at hrec ⊢
          omega

/-- Where page `i` lands: the merge loop started at offset `y0` writes page `i`
unchanged at vertical offset `y0` plus the heights of the pages before it. -/
theorem mergeLoop_pix_page (imgs : List Img) :
    ∀ (i : Nat) (h : i < imgs.length) (c : Img) (y0 x y : Nat),
      x < imgs[i].width → y < imgs[i].height →
      x < c.width → y0 + ((imgs.take i).map Img.height).sum + y < c.height →
      (mergeLoop imgs c y0).pix x (y0 + ((imgs.take i).map Img.height).sum + y)
        = imgs[i].pix x y := by
  induction imgs with
  | nil => intro i h; exact absurd h (Nat.not_lt_zero i)
  | cons img rest ih =>
      intro i h c y0 x y hx hy hxc hyc
      cases i with
      | zero =>
          simp only [List.take_zero, List.map_nil, List.sum_nil, Nat.add_zero,
            List.getElem_cons_zero] at hx hy hyc ⊢
          rw [mergeLoop, mergeLoop_pix_below rest _ _ _ _ (by omega)]
          rw [Img.paste_pix, if_pos]
          · congr 1
            omega
          · refine ⟨hxc, hyc, Nat.zero_le _, by omega, Nat.le_add_right _ _, by omega⟩
      | succ j =>
          have hj : j < rest.length := by simpa using h
          simp only [List.take_succ_cons, List.map_cons, List.sum_cons,
            List.getElem_cons_succ] at hx hy hyc ⊢
          have harr : y0 + (img.height + ((rest.take j).map Img.height).sum) + y
              = (y0 + img.height) + ((rest.take j).map Img.height).sum + y := by omega
          rw [mergeLoop, harr]
          exact ih j hj (c.paste img 0 y0) (y0 + img.height) x y hx hy hxc
            (by rw [Img.paste_height]; omega)

/-- A pixel covered by no page region is never written by the merge loop. -/
theorem mergeLoop_pix_uncovered (imgs : List Img) :
    ∀ (c : Img) (y0 x Y : Nat),
      (∀ (i : Nat) (hi : i < imgs.length),
        ¬(x < imgs[i].width ∧
          y0 + ((imgs.take i).map Img.height).sum ≤ Y ∧
          Y < y0 + ((imgs.take i).map Img.height).sum + imgs[i].height)) →
      (mergeLoop imgs c y0).pix x Y = c.pix x Y := by
  induction imgs with
  | nil => intro c y0 x Y _; rfl
  | cons img rest ih =>
      intro c y0 x Y h
      rw [mergeLoop, ih (c.paste img 0 y0) (y0 + img.height) x Y ?tail]
      case tail =>
        intro i hi
        have hnext := h (i + 1) (by simpa using hi)
        simp only [List.take_succ_cons, List.map_cons, List.sum_cons,
          List.getElem_cons_succ] at hnext
        intro ⟨h1, h2, h3⟩
        exact hnext ⟨h1, by omega, by omega⟩
      have h0 := h 0 (by simp)
      simp only [List.take_zero, List.map_nil, List.sum_nil, Nat.add_zero,
        List.getElem_cons_zero] at h0
      rw [Img.paste_pix, if_neg]
      rintro ⟨-, -, -, h4, h5, h6⟩
      exact h0 ⟨by omega, h5, h6⟩

/-! Claim theorems about the compositor geometry. -/

/-- C1: for every non-empty sequence of rendered pages, the combined canvas has
height equal to the exact sum of the page heights, and width equal to the
maximum of the page widths (it is one of the widths and bounds them all). -/
theorem combined_canvas_dims (images : List Img) (h : images ≠ []) :
    (combine_image images).height = (images.map Img.height).sum ∧
    (combine_image images).width ∈ images.map Img.width ∧
    ∀ w ∈ images.map Img.width, w ≤ (combine_image images).width := by
  refine ⟨combine_image_height images, ?_, ?_⟩
  · rw [combine_image_width]
    exact max_width_mem images h
  · intro w hw
    rw [combine_image_width]
    obtain ⟨img, hmem, hwidth⟩ := List.mem_map.mp hw
    rw [← hwidth]
    exact width_le_max_width images img hmem

/-- Witness for `combined_canvas_dims` at the one-page list `[testPage]`. -/
theorem combined_canvas_dims_witness :
    (([testPage] : List Img) ≠ []) ∧
    ((combine_image [testPage]).height = ([testPage].map Img.height).sum ∧
     (combine_image [testPage]).width ∈ [testPage].map Img.width ∧
     ∀ w ∈ [testPage].map Img.width, w ≤ (combine_image [testPage]).width) :=
  ⟨by simp, combined_canvas_dims [testPage] (by simp)⟩

/-- C7: each page `i` is pasted at horizontal offset 0 and vertical offset equal
to the sum of the heights of pages `0..i-1`, with its pixel data copied
unmodified into its target region of the combined canvas. -/
theorem page_pasted_at_offset (images : List Img) (i : Nat) (h : i < images.length)
    (x y : Nat) (hx : x < images[i].width) (hy : y < images[i].height) :
    (combine_image images).pix x (((images.take i).map Img.height).sum + y)
      = images[i].pix x y := by
  have hxw : x < max_width images :=
    lt_of_lt_of_le hx (width_le_max_width images images[i] (images.getElem_mem h))
  have hyh : ((images.take i).map Img.height).sum + y < total_height images :=
    lt_of_lt_of_le (by omega) (take_height_sum_le images i h)
  have hp := mergeLoop_pix_page images i h
      (Image.new (max_width images) (total_height images)) 0 x y hx hy hxw
      (by simpa using hyh)
  simpa [combine_image] using hp

/-- Witness for `page_pasted_at_offset`: second page of a concrete two-page list. -/
theorem page_pasted_at_offset_witness :
    (1 < ([testPage, testPage] : List Img).length) ∧
    (1 < ([testPage, testPage] : List Img)[1].width) ∧
    (0 < ([testPage, testPage] : List Img)[1].height) ∧
    (combine_image [testPage, testPage]).pix 1
        ((([testPage, testPage].take 1).map Img.height).sum + 0)
      = ([testPage, testPage] : List Img)[1].pix 1 0 :=
  ⟨by decide, by decide, by decide,
    page_pasted_at_offset [testPage, testPage] 1 (by decide) 1 0 (by decide) (by decide)⟩

/-- C8: composing the one-page sequence of a single rendered page yields a
canvas with exactly the dimensions of that page, every in-range pixel of which
equals the corresponding page pixel: the page sits at offset zero with no
extra blank region. -/
theorem single_page_roundtrip (img : Img) :
    (combine_image [img]).width = img.width ∧
    (combine_image [img]).height = img.height ∧
    ∀ x y, x < img.width → y < img.height →
      (combine_image [img]).pix x y = img.pix x y := by
  have hmw : max_width [img] = img.width := by
    simp [max_width]
  have hth : total_height [img] = img.height := by
    simp [total_height]
  refine ⟨by rw [combine_image_width, hmw], by rw [combine_image_height, hth], ?_⟩
  intro x y hx hy
  have hp := mergeLoop_pix_page [img] 0 (by simp)
      (Image.new (max_width [img]) (total_height [img])) 0 x y
      (by simpa using hx) (by simpa using hy)
      (by simp only [Image.new]; rw [hmw]; exact hx)
      (by simp only [Image.new]; rw [hth]; simpa using hy)
  simpa [combine_image] using hp

/-- Witness for `single_page_roundtrip` at `testPage`, pixel (1, 2). -/
theorem single_page_roundtrip_witness :
    1 < testPage.width ∧ 2 < testPage.height ∧
    (combine_image [testPage]).pix 1 2 = testPage.pix 1 2 :=
  ⟨by decide, by decide, (single_page_roundtrip testPage).2.2 1 2 (by decide) (by decide)⟩

/-- C10: the combined canvas is allocated as a three-channel RGB image filled
with black `(0,0,0)`, so every canvas pixel not covered by any pasted page
region is exactly black in the output. -/
theorem uncovered_region_black (images : List Img) (x y : Nat)
    (h : ∀ (i : Nat) (hi : i < images.length),
      ¬(x < images[i].width ∧
        ((images.take i).map Img.height).sum ≤ y ∧
        y < ((images.take i).map Img.height).sum + images[i].height)) :
    (Image.new (max_width images) (total_height images)).pix x y = (0, 0, 0) ∧
    (combine_image images).pix x y = (0, 0, 0) := by
  refine ⟨rfl, ?_⟩
  have hu := mergeLoop_pix_uncovered images
      (Image.new (max_width images) (total_height images)) 0 x y
      (fun i hi => by simpa using h i hi)
  simpa [combine_image, Image.new] using hu

/-- Witness for `uncovered_region_black`: pixel (5, 1) lies right of the single
2-pixel-wide page, so it is uncovered. -/
theorem uncovered_region_black_witness :
    (∀ (i : Nat) (hi : i < ([testPage] : List Img).length),
      ¬(5 < ([testPage] : List Img)[i].width ∧
        ((([testPage] : List Img).take i).map Img.height).sum ≤ 1 ∧
        1 < ((([testPage] : List Img).take i).map Img.height).sum
            + ([testPage] : List Img)[i].height)) ∧
    ((Image.new (max_width [testPage]) (total_height [testPage])).pix 5 1 = (0, 0, 0) ∧
     (combine_image [testPage]).pix 5 1 = (0, 0, 0)) :=
  ⟨by decide, uncovered_region_black [testPage] 5 1 (by decide)⟩

/-! Claim theorems about renderer error handling. -/

/-- C5: a zero-page document makes `pdf_to_image` raise the empty-document
`ValueError` and produce no output image: the save line is never reached. -/
theorem empty_document_fails (doc : List PageRender) (h : doc.length = 0) :
    (pdf_to_image doc).result = Except.error PdfErr.emptyDocument ∧
    (pdf_to_image doc).savedOutput = none := by
  rcases doc with _ | ⟨p, rest⟩
  · exact ⟨rfl, rfl⟩
  · simp at h

/-- Witness for `empty_document_fails` at the empty document. -/
theorem empty_document_fails_witness :
    (([] : List PageRender).length = 0) ∧
    ((pdf_to_image []).result = Except.error PdfErr.emptyDocument ∧
     (pdf_to_image []).savedOutput = none) :=
  ⟨rfl, empty_document_fails [] rfl⟩

/-- If every page rasterizes successfully, the rendering loop succeeds. -/
theorem renderPages_isOk (doc : List PageRender)
    (h : ∀ p ∈ doc, ∃ img, p = Except.ok img) :
    ∃ imgs, renderPages doc = Except.ok imgs := by
  induction doc with
  | nil => exact ⟨[], rfl⟩
  | cons p rest ih =>
      obtain ⟨img, hp⟩ := h p (by simp)
      obtain ⟨imgs, hr⟩ := ih (fun q hq => h q (by simp [hq]))
      subst hp
      exact ⟨img :: imgs, by simp [renderPages, hr]⟩

/-- C6 counterexample: when a page rasterization raises, the exception escapes
the loop before line 32, so `pdf_document.close()` never runs and the handle
is leaked. -/
theorem doc_handle_leaked_on_render_failure :
    (pdf_to_image [Except.error ("page render failed")]).docClosed = false := rfl

/-- C6 amended: the document handle is closed before `pdf_to_image` returns
whenever every page rasterizes successfully (including the zero-page case);
when a page rasterization raises, `close()` on line 32 is skipped. -/
theorem doc_closed_on_success (doc : List PageRender)
    (h : ∀ p ∈ doc, ∃ img, p = Except.ok img) :
    (pdf_to_image doc).docClosed = true := by
  obtain ⟨imgs, hr⟩ := renderPages_isOk doc h
  unfold pdf_to_image
  rw [hr]
  by_cases he : imgs.isEmpty <;> simp [he]

/-- Witness for `doc_closed_on_success` at a one-page document. -/
theorem doc_closed_on_success_witness :
    (∀ p ∈ ([Except.ok testPage] : List PageRender), ∃ img, p = Except.ok img) ∧
    (pdf_to_image [Except.ok testPage]).docClosed = true :=
  ⟨fun p hp => ⟨testPage, List.mem_singleton.mp hp⟩,
   doc_closed_on_success [Except.ok testPage]
     (fun p hp => ⟨testPage, List.mem_singleton.mp hp⟩)⟩

/-! Claim theorems about the fetcher. -/

/-- C4 counterexample: a 404 response and a 500 response raise the very same
exception value, so the raised error does not carry the HTTP status code. -/
theorem download_error_carries_no_status :
    ((download_pdf ("http://h/x.pdf") ("downloaded_pdf.pdf")
        { status_code := 404, content := [7] }).result
      = Except.error ("Failed to download PDF.")) ∧
    ((download_pdf ("http://h/x.pdf") ("downloaded_pdf.pdf")
        { status_code := 500, content := [7] }).result
      = Except.error ("Failed to download PDF.")) := by
  exact ⟨rfl, rfl⟩

/-- C4 amended: every non-200 response makes `download_pdf` raise the fixed
failure message, which carries no status code, and no temporary file is
written by that fetch. -/
theorem download_non_200_no_file (url save_path : String) (response : HttpResponse)
    (h : response.status_code ≠ 200) :
    (download_pdf url save_path response).result
        = Except.error ("Failed to download PDF.") ∧
    (download_pdf url save_path response).fileWritten = none := by
  unfold download_pdf
  rw [if_neg h]
  exact ⟨rfl, rfl⟩

/-- Witness for `download_non_200_no_file` at a 404 response. -/
theorem download_non_200_no_file_witness :
    (({ status_code := 404, content := [7] } : HttpResponse).status_code ≠ 200) ∧
    ((download_pdf ("http://h/y.pdf") ("p.pdf")
        { status_code := 404, content := [7] }).result
      = Except.error ("Failed to download PDF.") ∧
     (download_pdf ("http://h/y.pdf") ("p.pdf")
        { status_code := 404, content := [7] }).fileWritten = none) :=
  ⟨by decide, download_non_200_no_file ("http://h/y.pdf") ("p.pdf")
      { status_code := 404, content := [7] } (by decide)⟩

/-! Claim theorems about the orchestrator. -/

/-- On a URL input with a 200 response, the try block resolves the path to the
fixed temporary path with the body written there, then runs the pipeline. -/
theorem tryBlock_url_200 (input_path : String) (response : HttpResponse)
    (openResult : OpenResult)
    (hurl : (startswith input_path ("http://") || startswith input_path ("https://")) = true)
    (hok : response.status_code = 200) :
    tryBlock input_path response openResult
      = pipelineAfterResolve main_save_path (some (main_save_path, response.content))
          main_save_path openResult := by
  simp [tryBlock, download_pdf, hurl, hok]

/-- C2 counterexample: URL input, successful download (HTTP 200), but opening
the downloaded document raises: the temporary file was written, the error is
printed, and `os.remove` on line 72 is never reached — the download is not
cleaned up on failure. -/
theorem temp_file_not_cleaned_on_failure :
    ((main_run ("http://h/x.pdf") { status_code := 200, content := [3] }
        (Except.error ("cannot open broken document"))).effects.fileWritten
      = some (main_save_path, [3])) ∧
    ((main_run ("http://h/x.pdf") { status_code := 200, content := [3] }
        (Except.error ("cannot open broken document"))).effects.removed = []) ∧
    ((main_run ("http://h/x.pdf") { status_code := 200, content := [3] }
        (Except.error ("cannot open broken document"))).printed
      = some ("Error: cannot open broken document")) := by
  exact ⟨by decide, by decide, by decide⟩

/-- C2 amended: after a successful download (URL input, HTTP 200), the
temporary file is removed when the pipeline then succeeds; when rendering or
composition fails, the `except` branch is taken before line 72, so the
temporary file is left on disk. -/
theorem temp_cleanup_only_on_success (input_path : String) (response : HttpResponse)
    (openResult : OpenResult)
    (hurl : (startswith input_path ("http://") || startswith input_path ("https://")) = true)
    (hok : response.status_code = 200) :
    ((main_run input_path response openResult).printed = none →
      (main_run input_path response openResult).effects.removed = [main_save_path]) ∧
    ((main_run input_path response openResult).printed ≠ none →
      (main_run input_path response openResult).effects.removed = [] ∧
      (main_run input_path response openResult).effects.fileWritten
        = some (main_save_path, response.content)) := by
  have ht := tryBlock_url_200 input_path response openResult hurl hok
  rcases openResult with e | doc
  · simp [main_run, ht, pipelineAfterResolve]
  · rcases hres : (pdf_to_image doc).result with err | img
    · simp [main_run, ht, pipelineAfterResolve, hres]
    · simp [main_run, ht, pipelineAfterResolve, hres]

/-- Witness for `temp_cleanup_only_on_success`: a fully successful URL run
removes the temporary file. -/
theorem temp_cleanup_only_on_success_witness :
    ((startswith ("http://h/x.pdf") ("http://")
        || startswith ("http://h/x.pdf") ("https://")) = true) ∧
    (({ status_code := 200, content := [3] } : HttpResponse).status_code = 200) ∧
    (((main_run ("http://h/x.pdf") { status_code := 200, content := [3] }
        (Except.ok [Except.ok testPage])).printed = none →
      (main_run ("http://h/x.pdf") { status_code := 200, content := [3] }
        (Except.ok [Except.ok testPage])).effects.removed = [main_save_path]) ∧
     ((main_run ("http://h/x.pdf") { status_code := 200, content := [3] }
        (Except.ok [Except.ok testPage])).printed ≠ none →
      (main_run ("http://h/x.pdf") { status_code := 200, content := [3] }
        (Except.ok [Except.ok testPage])).effects.removed = [] ∧
      (main_run ("http://h/x.pdf") { status_code := 200, content := [3] }
        (Except.ok [Except.ok testPage])).effects.fileWritten
        = some (main_save_path, ({ status_code := 200, content := [3] } : HttpResponse).content))) :=
  ⟨by decide, by decide,
   temp_cleanup_only_on_success ("http://h/x.pdf") { status_code := 200, content := [3] }
     (Except.ok [Except.ok testPage]) (by decide) (by decide)⟩

/-- C3: the code deletes a user-supplied local path when it happens to equal
the fixed temporary path. An input equal to the temporary path constant is not
a URL, yet after a successful pipeline the path comparison on line 71 makes
`main` remove this user-supplied file. -/
theorem user_path_deleted_when_matching_temp :
    (startswith ("downloaded_pdf.pdf") ("http://") = false) ∧
    (startswith ("downloaded_pdf.pdf") ("https://") = false) ∧
    ((main_run ("downloaded_pdf.pdf") { status_code := 200, content := [] }
        (Except.ok [Except.ok testPage])).effects.removed
      = [("downloaded_pdf.pdf")]) := by
  exact ⟨by decide, by decide, by decide⟩

/-- C9: whatever the fetcher, renderer or compositor raises is caught by the
single handler in `main`, which prints exactly one error message and ends the
run normally with exit code 0; on success nothing is printed and the exit code
is also 0. -/
theorem orchestrator_catches_all (input_path : String) (response : HttpResponse)
    (openResult : OpenResult) :
    (main_run input_path response openResult).exitCode = 0 ∧
    (main_run input_path response openResult).printed
      = Option.map (fun e => ("Error: ") ++ e)
          (tryBlock input_path response openResult).2 := by
  cases h : (tryBlock input_path response openResult).2 <;> simp [main_run, h]
